import Mathlib

/-!
A verification development for the gpax deep-kernel-learning module
(src/gpax/vidkl.py, class viDKL). The class is embedded shallowly: arrays
become lists of rationals, the instance attributes become a record with
optional fields (an absent attribute is `none`, and reading it fails the way
the Python attribute lookup fails), and each method becomes a function on that
record. External collaborators that are not part of the file — the kernels
module behind `get_kernel`, the `ExactGP` base class (gp.py), the numpyro SVI
machinery and the haiku parameter containers — are modelled from their
documented interfaces; every such definition carries a comment starting with
"Modelled from the spec".
-/

namespace GPax

/-- One-dimensional numeric array (a jax vector), modelled over ℚ. -/
abbrev Arr1 := List ℚ

/-- Two-dimensional numeric array (a jax matrix), as a list of rows. -/
abbrev Arr2 := List (List ℚ)

/-- A dictionary of kernel hyperparameters: parameter name to numeric value. -/
abbrev Params := List (String × ℚ)

/-- An opaque random-number-generator key (external capability). -/
abbrev RngKey := ℕ

/-- The base kernel function of a resolved KernelEvaluator: hyperparameters
and two embedded points give a covariance value. -/
abbrev KernelFn := Params → Arr1 → Arr1 → ℚ

/-- The multivariate-normal sampling substrate used by the predictive step:
key, mean, covariance and a sample count give the sampled predictions. -/
abbrev Sampler := RngKey → Arr1 → Arr2 → ℕ → Arr2

/-- Runtime failures of the Python code, by kind. -/
inductive PyErr
  | attributeError (attr : String)
  | keyError (key : String)
  | shapeError (msg : String)
  | numericalError (msg : String)
  | moduleOutsideTransform
deriving DecidableEq

/-- True exactly on shape errors. -/
def PyErr.isShapeError : PyErr → Bool
  | .shapeError _ => true
  | _ => false

/-- True exactly on numerical errors. -/
def PyErr.isNumericalError : PyErr → Bool
  | .numericalError _ => true
  | _ => false

/-- Dot product of two vectors. -/
def dot (a b : Arr1) : ℚ := (List.zipWith (· * ·) a b).sum

/-- jnp.matmul of a matrix and a vector. -/
def matVec (A : Arr2) (v : Arr1) : Arr1 := A.map (fun row => dot row v)

/-- jnp.matmul of two matrices. -/
def matMul (A B : Arr2) : Arr2 :=
  A.map (fun row => B.transpose.map (fun col => dot row col))

/-- Elementwise difference of two matrices. -/
def matSub (A B : Arr2) : Arr2 :=
  List.zipWith (fun r1 r2 => List.zipWith (fun a b => a - b) r1 r2) A B

/-- Determinant by cofactor expansion along the first row; the first argument
is recursion fuel, in use always the size of the matrix. -/
def detFuel : ℕ → Arr2 → ℚ
  | _, [] => 1
  | 0, _ :: _ => 1
  | fuel+1, r :: rest =>
      (List.range r.length).foldr
        (fun j acc =>
          (-1 : ℚ)^j * r.getD j 0 * detFuel fuel (rest.map (fun row => row.eraseIdx j)) + acc) 0

/-- Determinant of a square matrix. -/
def det (A : Arr2) : ℚ := detFuel A.length A

/-- jnp.linalg.inv: the dense matrix inverse, through the adjugate formula —
entry (i, j) is the (j, i) cofactor divided by the determinant. On a singular
matrix the source produces garbage values (inf/nan); this model produces
values divided by a zero determinant there, likewise unspecified. -/
def matInv (A : Arr2) : Arr2 :=
  (List.range A.length).map (fun i => (List.range A.length).map (fun j =>
    (-1:ℚ)^(i+j) * det ((A.eraseIdx j).map (fun row => row.eraseIdx i)) / det A))

/-- Modelled from the spec: the KernelEvaluator capability resolved by
`get_kernel` (the kernels module is not part of this file). Given two point
sets, hyperparameters and a noise/jitter term it returns the covariance
matrix; the noise/jitter term is added along the diagonal, and a zero term
leaves the cross entries untouched. -/
def kernelMatrix (K : KernelFn) (p : Params) (A B : Arr2) (jitter : ℚ) : Arr2 :=
  (List.range A.length).map (fun i =>
    (List.range B.length).map (fun j =>
      K p (A.getD i []) (B.getD j []) + (if i = j then jitter else 0)))

/-- Trainable parameters of the three dense layers of the default network
(the parameter container machinery, haiku, is an external capability). -/
structure MLPParams where
  W1 : Arr2
  b1 : Arr1
  W2 : Arr2
  b2 : Arr1
  W3 : Arr2
  b3 : Arr1

/-- Rectified-linear activation, elementwise. -/
def relu (x : Arr1) : Arr1 := x.map (fun t => max t 0)

/-- A dense (hk.Linear) layer: weight matrix times input plus bias. -/
def linearLayer (W : Arr2) (b : Arr1) (x : Arr1) : Arr1 :=
  List.zipWith (fun a c => a + c) (matVec W x) b

/-- Source lines 155-159: `mlp(embedim)` builds the sequential network
Linear(1000) - relu - Linear(500) - relu - Linear(embedim), a factory whose
one argument fixes the size of the final layer. The layer sizes live in the
externally initialized parameters; see `MLPParams.WF`. -/
def mlp (embedim : ℕ) (p : MLPParams) (x : Arr1) : Arr1 :=
  linearLayer p.W3 p.b3 (relu (linearLayer p.W2 p.b2 (relu (linearLayer p.W1 p.b1 x))))

/-- Well-formedness of the layer parameters: haiku initializes each Linear(n)
with n output rows, so W1/b1 have 1000, W2/b2 have 500, W3/b3 have embedim. -/
def MLPParams.WF (embedim : ℕ) (p : MLPParams) : Prop :=
  p.W1.length = 1000 ∧ p.b1.length = 1000 ∧ p.W2.length = 500 ∧ p.b2.length = 500 ∧
  p.W3.length = embedim ∧ p.b3.length = embedim

/-- The stored feature extractor. Source line 39 stores either the custom
callable `nn` or the bare `mlp` object itself. `mlp` is a network factory, not
a network: its one argument is the size of the final layer (`embedim`), so the
stored default is a function awaiting a layer size, not a function on data. -/
inductive FE
  | custom (f : Arr2 → Arr2)
  | mlpFactory

/-- Calling the stored feature extractor on a data matrix. A custom callable
is applied directly. The default is the bare `mlp` factory: the call hands the
data matrix to `mlp` as its `embedim` argument, so no layer is ever applied to
the data, the configured `z_dim` is never supplied, and the call fails (haiku
modules cannot be built outside a transform); that failure is this error. -/
def applyFE : FE → Arr2 → Except PyErr Arr2
  | .custom f, X => .ok (f X)
  | .mlpFactory, _ => .error .moduleOutsideTransform

/-- The attribute state of a viDKL instance. The resolved kernel evaluator and
the list of default kernel hyperparameter names stand for the external kernels
module; the training and fitted-state attributes are absent (`none`) until
`fit` writes them — reading an absent attribute is the designated not-fitted
failure. -/
structure ViDKLState where
  kernel : KernelFn
  kernelParamNames : List String
  kernel_prior : Option (Unit → Params)
  feature_extractor : FE
  kernel_dim : ℕ
  latent_prior : Option (Arr2 → Arr2)
  X_train : Option Arr2
  y_train : Option Arr1
  kernel_params : Option Params

/-- Source lines 32-41 (`viDKL.__init__`) plus the base-class state, modelled
from the spec (gp.py is not part of this file): a fresh instance has no
training data and no fitted kernel parameters. `input_dim` is passed to the
base class, whose `kernel_dim` the subclass then overwrites with `z_dim`. -/
def viDKL_init (input_dim : ℕ) (z_dim : ℕ) (kernel : KernelFn)
    (kernelParamNames : List String) (kernel_prior : Option (Unit → Params))
    (nn : Option (Arr2 → Arr2)) (latent_prior : Option (Arr2 → Arr2)) : ViDKLState :=
  { kernel := kernel
    kernelParamNames := kernelParamNames
    kernel_prior := kernel_prior
    feature_extractor := (nn.map FE.custom).getD FE.mlpFactory
    kernel_dim := z_dim
    latent_prior := latent_prior
    X_train := none
    y_train := none
    kernel_params := none }

/-- A prior or likelihood distribution registered at a sample site. -/
inductive Distr
  | logNormal (loc scale : ℚ)
  | multivariateNormal (loc : Arr1) (cov : Arr2)

/-- A numpyro sample site: name, distribution, and the observed value when the
site is conditioned. -/
structure Site where
  name : String
  distr : Distr
  obs : Option Arr1

/-- Modelled from the spec: `ExactGP._sample_kernel_params` (base class, not
part of this file) draws each kernel hyperparameter independently from a
LogNormal(0, 1) prior. `env` supplies the values drawn by the inference
handler. Returns the registered sites and the resulting parameter dict. -/
def sample_kernel_params (names : List String) (env : String → ℚ) : List Site × Params :=
  (names.map (fun nm => ⟨nm, .logNormal 0 1, none⟩), names.map (fun nm => (nm, env nm)))

/-- Source lines 47-48: an optional latent prior transforms the embedding. -/
def latentZ (s : ViDKLState) (z : Arr2) : Arr2 :=
  match s.latent_prior with
  | some lp => lp z
  | none => z

/-- Source lines 43-69 (`viDKL.model`): embed X, optionally transform by the
latent prior, resolve kernel hyperparameters (a custom generator is invoked
with no arguments, else the default priors are sampled), sample noise from
LogNormal(0, 1), take the zero mean of the length of the embedding, build the
covariance with the noise term, and register the multivariate-normal
likelihood observed at y. The result is the list of registered sample sites. -/
def model (s : ViDKLState) (env : String → ℚ) (X : Arr2) (y : Option Arr1) :
    Except PyErr (List Site) :=
  match applyFE s.feature_extractor X with
  | .error e => .error e
  | .ok z0 =>
    let z := latentZ s z0
    let pk : List Site × Params :=
      match s.kernel_prior with
      | some g => ([], g ())
      | none => sample_kernel_params s.kernelParamNames env
    let noise := env ("noise")
    let f_loc : Arr1 := List.replicate z.length 0
    let k := kernelMatrix s.kernel pk.2 z z noise
    .ok (pk.1 ++ [⟨"noise", .logNormal 0 1, none⟩, ⟨"y", .multivariateNormal f_loc k, y⟩])

/-- Source lines 71-91 (`viDKL.get_mvn_posterior`): read the noise entry,
embed the stored training data and the test data, build the three kernel
matrices (noise on the diagonal for train-train and test-test, zero jitter
for test-train), invert the train-train matrix, and return the standard GP
predictive mean and covariance. Reading y_train is placed before the matrix
work; in the source it happens at the end, which is indistinguishable here
because fit writes X_train and y_train together. -/
def get_mvn_posterior (s : ViDKLState) (X_test : Arr2) (params : Params) :
    Except PyErr (Arr1 × Arr2) :=
  match List.lookup ("noise") params with
  | none => .error (.keyError ("noise"))
  | some noise =>
    match s.X_train with
    | none => .error (.attributeError ("X_train"))
    | some Xtr =>
      match applyFE s.feature_extractor Xtr with
      | .error e => .error e
      | .ok z_train =>
        match applyFE s.feature_extractor X_test with
        | .error e => .error e
        | .ok z_test =>
          match s.y_train with
          | none => .error (.attributeError ("y_train"))
          | some ytr =>
            let k_pp := kernelMatrix s.kernel params z_test z_test noise
            let k_pX := kernelMatrix s.kernel params z_test z_train 0
            let k_XX := kernelMatrix s.kernel params z_train z_train noise
            let K_xx_inv := matInv k_XX
            let cov := matSub k_pp (matMul k_pX (matMul K_xx_inv k_pX.transpose))
            let mean := matVec k_pX (matVec K_xx_inv ytr)
            .ok (mean, cov)

/-- Modelled from the spec: `ExactGP._predict` (base class, not part of this
file) computes the multivariate-normal posterior for one hyperparameter dict
and draws n samples from it with the given key, returning the mean and the
samples. -/
def predict_inner (sampler : Sampler) (s : ViDKLState) (rng_key : RngKey)
    (X_new : Arr2) (kp : Params) (n : ℕ) : Except PyErr (Arr1 × Arr2) :=
  match get_mvn_posterior s X_new kp with
  | .error e => .error e
  | .ok mc => .ok (mc.1, sampler rng_key mc.1 mc.2 n)

/-- Source lines 123-140 (`viDKL.predict`): resolve the hyperparameters — the
stored fitted state when none are passed, and reading that on a never-fitted
instance is the not-fitted failure — then delegate. -/
def predict (sampler : Sampler) (s : ViDKLState) (rng_key : RngKey) (X_new : Arr2)
    (kernel_params : Option Params) (n : ℕ) : Except PyErr (Arr1 × Arr2) :=
  match kernel_params with
  | some p => predict_inner sampler s rng_key X_new p n
  | none =>
    match s.kernel_params with
    | none => .error (.attributeError ("kernel_params"))
    | some p => predict_inner sampler s rng_key X_new p n

/-- Source lines 149-152 (`viDKL.embed`): apply the feature extractor only. -/
def embed (s : ViDKLState) (X_test : Arr2) : Except PyErr Arr2 :=
  applyFE s.feature_extractor X_test

/-- predict together with its instance state, which the method leaves as it
was: the body assigns no attribute. -/
def predictS (sampler : Sampler) (s : ViDKLState) (rng_key : RngKey) (X_new : Arr2)
    (kernel_params : Option Params) (n : ℕ) : Except PyErr (Arr1 × Arr2) × ViDKLState :=
  (predict sampler s rng_key X_new kernel_params n, s)

/-- embed together with its instance state, which the method leaves as it was:
the body assigns no attribute. -/
def embedS (s : ViDKLState) (X_test : Arr2) : Except PyErr Arr2 × ViDKLState :=
  (embed s X_test, s)

/-- A possibly one-dimensional input array, before coercion to 2D. -/
inductive NDArr
  | one (a : Arr1)
  | two (a : Arr2)

/-- Source line 104: `X if X.ndim > 1 else X[:, None]` — a 1D input gains a
trailing feature axis. -/
def atleast2d : NDArr → Arr2
  | .one a => a.map (fun t => [t])
  | .two a => a

/-- The optimizer configuration: numpyro.optim.Adam(step_size, b1). -/
structure AdamConfig where
  step_size : ℚ
  b1 : ℚ
deriving DecidableEq

/-- The guide family: AutoDelta is the point-mass guide. -/
inductive GuideSpec
  | autoDelta
deriving DecidableEq

/-- The loss: Trace_ELBO. -/
inductive LossSpec
  | traceELBO
deriving DecidableEq

/-- The full SVI configuration built by fit. -/
structure SVIConfig where
  optim : AdamConfig
  guide : GuideSpec
  loss : LossSpec
deriving DecidableEq

/-- Modelled from the spec: the VariationalFitter capability (numpyro SVI is
not part of this file). An engine provides the per-step gradient update under
a configuration (an update fails on a non-finite loss), the initial guide
parameters from the key, and the median extraction of the fitted guide. -/
structure SVIEngine where
  update : SVIConfig → Params → Except PyErr Params
  guideInit : RngKey → Params
  median : Params → Params

/-- Modelled from the spec: `svi.run` executes the given number of gradient
updates in sequence, stopping at, and propagating, the first failure — no
retry. -/
def svi_run (upd : Params → Except PyErr Params) : ℕ → Params → Except PyErr Params
  | 0, p => .ok p
  | n+1, p =>
    match upd p with
    | .error e => .error e
    | .ok p2 => svi_run upd n p2

/-- The Python default value of the num_steps argument (source line 94). -/
def fit_num_steps_default : ℕ := 1000

/-- Source lines 93-121 (`viDKL.fit`): coerce X to 2D, store the training
data, run SVI with Adam(0.005, b1=0.5), an AutoDelta guide and Trace_ELBO for
num_steps steps, and persist the median of the fitted guide as the kernel
parameters. A failed run propagates its error; the training data were already
written by then, the fitted parameters were not. print_summary only prints. -/
def fit (e : SVIEngine) (s : ViDKLState) (rng_key : RngKey) (X : NDArr) (y : Arr1)
    (num_steps : ℕ) (print_summary : Bool) : Except PyErr Unit × ViDKLState :=
  let X2 := atleast2d X
  let s1 := { s with X_train := some X2, y_train := some y }
  match svi_run (e.update ⟨⟨5/1000, 1/2⟩, .autoDelta, .traceELBO⟩) num_steps
      (e.guideInit rng_key) with
  | .error err => (.error err, s1)
  | .ok p => (.ok Unit.unit, { s1 with kernel_params := some (e.median p) })

/-- The read-only operations of the orchestrator. -/
inductive Op
  | predictOp (rng_key : RngKey) (X_new : Arr2) (kernel_params : Option Params) (n : ℕ)
  | embedOp (X_test : Arr2)

/-- Run one read-only operation, keeping its instance state. -/
def runOp (sampler : Sampler) (s : ViDKLState) : Op → ViDKLState
  | .predictOp rng_key X_new kp n => (predictS sampler s rng_key X_new kp n).2
  | .embedOp X_test => (embedS s X_test).2

/-- Run a sequence of read-only operations. -/
def runOps (sampler : Sampler) (s : ViDKLState) : List Op → ViDKLState
  | [] => s
  | op :: rest => runOps sampler (runOp sampler s op) rest

/-- Following the words of the spec: the zero mean vector of length n. -/
def zerosVec (n : ℕ) : Arr1 := List.replicate n 0

/-- Following the words of the spec: the default prior registers one
LogNormal(0, 1) site per kernel hyperparameter. -/
def defaultPriorSites (names : List String) : List Site :=
  names.map (fun nm => ⟨nm, .logNormal 0 1, none⟩)

/-- Following the words of the spec: the sites registered for the kernel
hyperparameters — none when a custom generator is configured, the default
LogNormal sites otherwise. -/
def priorSitesOf (kp : Option (Unit → Params)) (names : List String) : List Site :=
  match kp with
  | some _ => []
  | none => defaultPriorSites names

/-- Following the words of the spec: the kernel hyperparameters used by the
model — the custom generator invoked with no arguments when configured, the
default draws otherwise. -/
def resolvedKernelParams (kp : Option (Unit → Params)) (names : List String)
    (env : String → ℚ) : Params :=
  match kp with
  | some g => g ()
  | none => names.map (fun nm => (nm, env nm))

/-- Following the words of the spec: predictive mean `k_pX · k_XX⁻¹ · y_train`. -/
def specPredictiveMean (k_pX K_xx_inv : Arr2) (y_train : Arr1) : Arr1 :=
  matVec k_pX (matVec K_xx_inv y_train)

/-- Following the words of the spec: predictive covariance
`k_pp − k_pX · k_XX⁻¹ · k_pXᵗ`. -/
def specPredictiveCov (k_pp k_pX K_xx_inv : Arr2) : Arr2 :=
  matSub k_pp (matMul k_pX (matMul K_xx_inv k_pX.transpose))

/-- A concrete constant kernel, for concrete evaluations. -/
def constKernel : KernelFn := fun _ _ _ => 1

/-- The identity feature extractor, for concrete evaluations. -/
def idFE : Arr2 → Arr2 := fun X => X

/-- A sampler returning no samples, for concrete evaluations. -/
def nilSampler : Sampler := fun _ _ _ _ => []

/-- A concrete fitted instance: one training point [1] with target 1, identity
embedding, constant kernel, fitted noise 1. -/
def fittedState : ViDKLState :=
  { kernel := constKernel
    kernelParamNames := []
    kernel_prior := none
    feature_extractor := FE.custom idFE
    kernel_dim := 1
    latent_prior := none
    X_train := some [[1]]
    y_train := some [1]
    kernel_params := some [("noise", 1)] }

/-- An engine whose update keeps the parameters unchanged. -/
def trivialEngine : SVIEngine :=
  { update := fun _ q => .ok q
    guideInit := fun _ => []
    median := fun p => p }

/-- An engine whose first update fails with a non-finite loss. -/
def failingEngine : SVIEngine :=
  { update := fun _ _ => .error (.numericalError ("nan loss"))
    guideInit := fun _ => []
    median := fun p => p }

/-- Helper: a sequence of predict/embed operations leaves the whole instance
state untouched, because neither method assigns an attribute. -/
theorem runOps_state_id (sampler : Sampler) (s : ViDKLState) (ops : List Op) :
    runOps sampler s ops = s := by
  induction ops generalizing s with
  | nil => rfl
  | cons op rest ih =>
    cases op with
    | predictOp rng_key X_new kp n => exact ih s
    | embedOp X_test => exact ih s

/-- Helper: when every update succeeds, `svi_run` is exactly the n-fold
iteration of the update. -/
theorem svi_run_ok (upd : Params → Except PyErr Params) (f : Params → Params)
    (h : ∀ q, upd q = .ok (f q)) :
    ∀ (n : ℕ) (p : Params), svi_run upd n p = .ok (f^[n] p) := by
  intro n
  induction n with
  | zero => intro p; rfl
  | succ m ih =>
    intro p
    rw [svi_run, h p, Function.iterate_succ_apply]
    exact ih (f p)

/-- Helper: a fit call writes the coerced training data into the state, on the
success branch and on the failure branch alike. -/
theorem fit_writes_training (e : SVIEngine) (s : ViDKLState) (rng_key : RngKey)
    (X : NDArr) (y : Arr1) (num_steps : ℕ) (ps : Bool) :
    ((fit e s rng_key X y num_steps ps).2).X_train = some (atleast2d X)
      ∧ ((fit e s rng_key X y num_steps ps).2).y_train = some y := by
  unfold fit
  cases svi_run (e.update ⟨⟨5/1000, 1/2⟩, .autoDelta, .traceELBO⟩) num_steps
      (e.guideInit rng_key) with
  | error err => exact ⟨rfl, rfl⟩
  | ok p => exact ⟨rfl, rfl⟩

/-- C2: on a freshly constructed, never-fitted instance, predict with the
kernel_params argument omitted fails by reading the absent fitted-state
attribute — the designated not-fitted failure — which is neither a shape
error nor a numerical error. -/
theorem claim_C2 (sampler : Sampler) (input_dim z_dim : ℕ) (K : KernelFn)
    (names : List String) (kp : Option (Unit → Params)) (nn : Option (Arr2 → Arr2))
    (lp : Option (Arr2 → Arr2)) (rng_key : RngKey) (X_new : Arr2) (n : ℕ) :
    predict sampler (viDKL_init input_dim z_dim K names kp nn lp) rng_key X_new none n
        = .error (.attributeError ("kernel_params"))
      ∧ (PyErr.attributeError ("kernel_params")).isShapeError = false
      ∧ (PyErr.attributeError ("kernel_params")).isNumericalError = false :=
  ⟨rfl, rfl, rfl⟩

/-- C3: the claim fails on the code. When no custom nn is supplied, line 39
stores the bare `mlp` factory itself — never `mlp(z_dim)` — so the configured
z_dim is never supplied to the network, and calling the stored extractor on
data hands the data to `mlp` as a layer size instead of applying the three
layers to it: the call produces no embedding at all. The translated `mlp`
itself (third conjunct) is exactly the claimed 1000/500/embedim architecture,
so the slip is the wiring in `__init__`. -/
theorem claim_C3 (input_dim z_dim : ℕ) (K : KernelFn) (names : List String)
    (kp : Option (Unit → Params)) (lp : Option (Arr2 → Arr2)) (X : Arr2)
    (p : MLPParams) (x : Arr1) :
    (viDKL_init input_dim z_dim K names kp none lp).feature_extractor = FE.mlpFactory
      ∧ applyFE FE.mlpFactory X = .error .moduleOutsideTransform
      ∧ mlp z_dim p x
        = linearLayer p.W3 p.b3 (relu (linearLayer p.W2 p.b2 (relu (linearLayer p.W1 p.b1 x)))) :=
  ⟨rfl, rfl, rfl⟩

/-- C4: embed applies only the feature extractor (first conjunct), but the
half of the claim about the output width fails on the code: on a
default-constructed instance the stored extractor is the bare `mlp` factory,
so embed produces no array at all — in particular nothing whose last
dimension is z_dim. -/
theorem claim_C4 (s : ViDKLState) (f : Arr2 → Arr2) (X : Arr2) (input_dim z_dim : ℕ)
    (K : KernelFn) (names : List String) (kp : Option (Unit → Params))
    (lp : Option (Arr2 → Arr2)) :
    embed { s with feature_extractor := FE.custom f } X = .ok (f X)
      ∧ embed (viDKL_init input_dim z_dim K names kp none lp) X
        = .error .moduleOutsideTransform :=
  ⟨rfl, rfl⟩

/-- C8: fit coerces a 1D input to 2D by adding a trailing feature axis, and
the resulting pair wholesale replaces the stored training data — the stored
result is the same whatever the previous state held, so no incremental update
occurs. -/
theorem claim_C8 (e : SVIEngine) (s t : ViDKLState) (rng_key : RngKey) (X : NDArr)
    (y : Arr1) (num_steps : ℕ) (ps : Bool) :
    ((fit e s rng_key X y num_steps ps).2).X_train = some (atleast2d X)
      ∧ ((fit e s rng_key X y num_steps ps).2).y_train = some y
      ∧ (∀ a : Arr1, atleast2d (.one a) = a.map (fun v => [v]))
      ∧ ((fit e s rng_key X y num_steps ps).2).X_train
          = ((fit e t rng_key X y num_steps ps).2).X_train
      ∧ ((fit e s rng_key X y num_steps ps).2).y_train
          = ((fit e t rng_key X y num_steps ps).2).y_train := by
  refine ⟨(fit_writes_training e s rng_key X y num_steps ps).1,
    (fit_writes_training e s rng_key X y num_steps ps).2, fun a => rfl, ?_, ?_⟩
  · rw [(fit_writes_training e s rng_key X y num_steps ps).1,
      (fit_writes_training e t rng_key X y num_steps ps).1]
  · rw [(fit_writes_training e s rng_key X y num_steps ps).2,
      (fit_writes_training e t rng_key X y num_steps ps).2]

/-- C9: after any sequence of predict and embed calls, the stored training
data and the fitted kernel hyperparameters are exactly what they were before:
those methods assign no attribute, only fit does. -/
theorem claim_C9 (sampler : Sampler) (s : ViDKLState) (ops : List Op) :
    ((runOps sampler s ops)).X_train = s.X_train
      ∧ ((runOps sampler s ops)).y_train = s.y_train
      ∧ ((runOps sampler s ops)).kernel_params = s.kernel_params := by
  rw [runOps_state_id]
  exact ⟨rfl, rfl, rfl⟩

/-- C1: for every test input and every hyperparameter dict containing a noise
entry, get_mvn_posterior embeds the stored training data and the test data
through the feature extractor and returns exactly the standard GP predictive
pair — mean `k_pX · k_XX⁻¹ · y_train` and covariance
`k_pp − k_pX · k_XX⁻¹ · k_pXᵗ` — with the noise term as diagonal jitter on
the test-test and train-train matrices and zero jitter on the test-train
matrix. -/
theorem claim_C1 (s : ViDKLState) (X_test : Arr2) (params : Params) (ν : ℚ)
    (Xtr z_train z_test : Arr2) (ytr : Arr1)
    (hν : List.lookup ("noise") params = some ν)
    (hX : s.X_train = some Xtr) (hy : s.y_train = some ytr)
    (htr : applyFE s.feature_extractor Xtr = .ok z_train)
    (hte : applyFE s.feature_extractor X_test = .ok z_test) :
    get_mvn_posterior s X_test params =
      .ok (specPredictiveMean (kernelMatrix s.kernel params z_test z_train 0)
            (matInv (kernelMatrix s.kernel params z_train z_train ν)) ytr,
          specPredictiveCov (kernelMatrix s.kernel params z_test z_test ν)
            (kernelMatrix s.kernel params z_test z_train 0)
            (matInv (kernelMatrix s.kernel params z_train z_train ν))) := by
  simp only [get_mvn_posterior, hν, hX, hy, htr, hte, specPredictiveMean, specPredictiveCov]

/-- Witness for C1 at a concrete fitted instance. -/
theorem claim_C1_witness :
    (List.lookup ("noise") ([("noise", (1:ℚ))] : Params) = some 1
      ∧ fittedState.X_train = some [[1]]
      ∧ fittedState.y_train = some [1]
      ∧ applyFE fittedState.feature_extractor [[1]] = .ok [[1]]
      ∧ applyFE fittedState.feature_extractor [[0]] = .ok [[0]])
    ∧ get_mvn_posterior fittedState [[0]] [("noise", 1)] =
      .ok (specPredictiveMean (kernelMatrix fittedState.kernel [("noise", 1)] [[0]] [[1]] 0)
            (matInv (kernelMatrix fittedState.kernel [("noise", 1)] [[1]] [[1]] 1)) [1],
          specPredictiveCov (kernelMatrix fittedState.kernel [("noise", 1)] [[0]] [[0]] 1)
            (kernelMatrix fittedState.kernel [("noise", 1)] [[0]] [[1]] 0)
            (matInv (kernelMatrix fittedState.kernel [("noise", 1)] [[1]] [[1]] 1))) :=
  ⟨⟨rfl, rfl, rfl, rfl, rfl⟩,
    claim_C1 fittedState [[0]] [("noise", 1)] 1 [[1]] [[1]] [[0]] [1] rfl rfl rfl rfl rfl⟩

/-- C5: in model(X, y), a configured custom kernel-prior generator is invoked
with no arguments for the hyperparameters and otherwise the default
LogNormal(0, 1) priors are sampled; noise is drawn from LogNormal(0, 1); the
GP prior mean is the zero vector whose length is the number of embedded
points; and the likelihood is a multivariate normal with that mean and the
kernel-built covariance, observed at y. -/
theorem claim_C5 (s : ViDKLState) (f : Arr2 → Arr2) (env : String → ℚ) (X : Arr2)
    (yv : Arr1) (g : Unit → Params) :
    model { s with feature_extractor := FE.custom f } env X (some yv) =
      .ok (priorSitesOf s.kernel_prior s.kernelParamNames ++
        [⟨"noise", Distr.logNormal 0 1, none⟩,
         ⟨"y", Distr.multivariateNormal (zerosVec (latentZ s (f X)).length)
            (kernelMatrix s.kernel
              (resolvedKernelParams s.kernel_prior s.kernelParamNames env)
              (latentZ s (f X)) (latentZ s (f X)) (env ("noise"))), some yv⟩])
      ∧ resolvedKernelParams (some g) s.kernelParamNames env = g () := by
  constructor
  · cases h : s.kernel_prior with
    | none =>
      simp [model, applyFE, latentZ, priorSitesOf, resolvedKernelParams,
        sample_kernel_params, defaultPriorSites, zerosVec, h]
    | some g0 =>
      simp [model, applyFE, latentZ, priorSitesOf, resolvedKernelParams, zerosVec, h]
  · rfl

/-- C6: with every update succeeding, fit runs exactly num_steps gradient
updates of the AutoDelta guide against Trace_ELBO under Adam with step size
0.005 and first-moment decay 0.5, starting from the initial guide parameters,
then persists the median of the fitted guide as the kernel parameters; the
Python default for num_steps is 1000. -/
theorem claim_C6 (e : SVIEngine) (s : ViDKLState) (rng_key : RngKey) (X : NDArr)
    (y : Arr1) (num_steps : ℕ) (ps : Bool) (f : Params → Params)
    (hupd : ∀ q, e.update ⟨⟨5/1000, 1/2⟩, .autoDelta, .traceELBO⟩ q = .ok (f q)) :
    (fit e s rng_key X y num_steps ps).1 = .ok Unit.unit
      ∧ ((fit e s rng_key X y num_steps ps).2).kernel_params
        = some (e.median (f^[num_steps] (e.guideInit rng_key)))
      ∧ fit_num_steps_default = 1000 := by
  unfold fit
  rw [svi_run_ok (e.update ⟨⟨5/1000, 1/2⟩, .autoDelta, .traceELBO⟩) f hupd num_steps
    (e.guideInit rng_key)]
  exact ⟨rfl, rfl, rfl⟩

/-- Witness for C6: the identity update engine run for two steps. -/
theorem claim_C6_witness :
    (∀ q, trivialEngine.update ⟨⟨5/1000, 1/2⟩, .autoDelta, .traceELBO⟩ q = .ok (id q))
    ∧ ((fit trivialEngine fittedState 0 (NDArr.one [1]) [1] 2 false).1 = .ok Unit.unit
      ∧ ((fit trivialEngine fittedState 0 (NDArr.one [1]) [1] 2 false).2).kernel_params
        = some (trivialEngine.median (id^[2] (trivialEngine.guideInit 0)))
      ∧ fit_num_steps_default = 1000) :=
  ⟨fun q => rfl,
    claim_C6 trivialEngine fittedState 0 (NDArr.one [1]) [1] 2 false id (fun q => rfl)⟩

/-- C7: when the optimization inside fit fails, the error propagates to the
caller unchanged (no retry), and the run writes no fitted kernel parameters —
so on an instance with no previously fitted state a subsequent predict call
fails with the not-fitted failure. -/
theorem claim_C7 (e : SVIEngine) (s : ViDKLState) (rng_key : RngKey) (X : NDArr)
    (y : Arr1) (num_steps : ℕ) (ps : Bool) (err : PyErr) (sampler : Sampler)
    (key2 : RngKey) (X2 : Arr2) (n : ℕ)
    (hfail : svi_run (e.update ⟨⟨5/1000, 1/2⟩, .autoDelta, .traceELBO⟩) num_steps
        (e.guideInit rng_key) = .error err)
    (hunfit : s.kernel_params = none) :
    (fit e s rng_key X y num_steps ps).1 = .error err
      ∧ ((fit e s rng_key X y num_steps ps).2).kernel_params = none
      ∧ predict sampler (fit e s rng_key X y num_steps ps).2 key2 X2 none n
        = .error (.attributeError ("kernel_params")) := by
  unfold fit
  rw [hfail]
  refine ⟨rfl, hunfit, ?_⟩
  simp [predict, hunfit]

/-- Witness for C7: a failing engine on a fresh instance. -/
theorem claim_C7_witness :
    (svi_run (failingEngine.update ⟨⟨5/1000, 1/2⟩, .autoDelta, .traceELBO⟩) 1
        (failingEngine.guideInit 0) = .error (.numericalError ("nan loss"))
      ∧ (viDKL_init 1 2 constKernel [] none none none).kernel_params = none)
    ∧ ((fit failingEngine (viDKL_init 1 2 constKernel [] none none none) 0
          (NDArr.one [1]) [1] 1 false).1 = .error (.numericalError ("nan loss"))
      ∧ ((fit failingEngine (viDKL_init 1 2 constKernel [] none none none) 0
          (NDArr.one [1]) [1] 1 false).2).kernel_params = none
      ∧ predict nilSampler (fit failingEngine (viDKL_init 1 2 constKernel [] none none none) 0
          (NDArr.one [1]) [1] 1 false).2 0 [[0]] none 1
        = .error (.attributeError ("kernel_params"))) :=
  ⟨⟨rfl, rfl⟩,
    claim_C7 failingEngine (viDKL_init 1 2 constKernel [] none none none) 0
      (NDArr.one [1]) [1] 1 false (.numericalError ("nan loss")) nilSampler 0 [[0]] 1 rfl rfl⟩

/-- C10: an explicit kernel_params dict does not remove the dependence on a
prior fit — get_mvn_posterior reads the stored training data, so predict on a
never-fitted instance fails even with explicit hyperparameters (first
conjunct), and on a fitted instance the result follows the stored training
data: the same call on two instances that differ only in the stored targets
returns different means (remaining conjuncts). -/
theorem claim_C10 (sampler : Sampler) (input_dim z_dim : ℕ) (K : KernelFn)
    (names : List String) (kp0 : Option (Unit → Params)) (nn : Option (Arr2 → Arr2))
    (lp : Option (Arr2 → Arr2)) (rng_key : RngKey) (X_new : Arr2) (params : Params)
    (n : ℕ) (ν : ℚ) (hν : List.lookup ("noise") params = some ν) :
    predict sampler (viDKL_init input_dim z_dim K names kp0 nn lp) rng_key X_new
        (some params) n = .error (.attributeError ("X_train"))
      ∧ predict nilSampler fittedState 0 [[0]] (some [("noise", 1)]) 1 = .ok ([1/2], [])
      ∧ predict nilSampler { fittedState with y_train := some [2] } 0 [[0]]
          (some [("noise", 1)]) 1 = .ok ([1], [])
      ∧ ([(1:ℚ)/2] : Arr1) ≠ [1] := by
  refine ⟨?_, ?_, ?_, ?_⟩
  · simp [predict, predict_inner, get_mvn_posterior, viDKL_init, hν]
  · norm_num [predict, predict_inner, get_mvn_posterior, fittedState, applyFE, idFE,
      constKernel, kernelMatrix, matInv, det, detFuel, matVec, matMul, matSub, dot,
      nilSampler, List.range_succ, List.getD, List.transpose]
  · norm_num [predict, predict_inner, get_mvn_posterior, fittedState, applyFE, idFE,
      constKernel, kernelMatrix, matInv, det, detFuel, matVec, matMul, matSub, dot,
      nilSampler, List.range_succ, List.getD, List.transpose]
  · intro h
    simp only [List.cons.injEq, and_true] at h
    norm_num at h

/-- Witness for C10: the concrete inputs of its conjuncts. -/
theorem claim_C10_witness :
    (List.lookup ("noise") ([("noise", (1:ℚ))] : Params) = some 1)
    ∧ (predict nilSampler (viDKL_init 1 2 constKernel [] none none none) 0 [[0]]
          (some [("noise", 1)]) 1 = .error (.attributeError ("X_train"))
      ∧ predict nilSampler fittedState 0 [[0]] (some [("noise", 1)]) 1 = .ok ([1/2], [])
      ∧ predict nilSampler { fittedState with y_train := some [2] } 0 [[0]]
          (some [("noise", 1)]) 1 = .ok ([1], [])
      ∧ ([(1:ℚ)/2] : Arr1) ≠ [1]) :=
  ⟨rfl, claim_C10 nilSampler 1 2 constKernel [] none none none 0 [[0]] [("noise", 1)] 1 1 rfl⟩

end GPax
